import Mathlib

/-!
Shallow embedding of the `vm-object-model` object layer
(`src/vm-object-model/src/object.rs`) of the gtoolkit-vm repository.

Heap memory is modelled as a byte-addressed map from addresses to 64-bit
words; an `Object` is identified by the byte address of its header
(`Object` is `#[repr(transparent)]` over `ObjectHeader`, so `as_ptr`
is the header address).  Rust panics (`assert!`, `unwrap`) are modelled
with `Except RustPanic`.
-/

namespace GtoolkitVM

/-- Byte-addressed memory: each address holds the 64-bit word obtained by
reading 8 bytes starting there.  All accesses performed by the embedded
code are 8-aligned relative to the object base, so word granularity is
faithful. -/
abbrev Mem : Type := Nat → Nat

/-- Read the 64-bit word at byte address `a` (an `i64`/`u64` load in the
source); the bit pattern is a natural number below `2 ^ 64`. -/
def readWord (m : Mem) (a : Nat) : Nat := m a % 2 ^ 64

/-- Store the 64-bit word `v` at byte address `a` (an `i64` store in the
source). -/
def writeWord (m : Mem) (a : Nat) (v : Nat) : Mem :=
  fun b => if b = a then v % 2 ^ 64 else m b

/-- The ways the embedded code can abort: the `assert!` in
`amount_of_slots` and the `u64::try_from(..).unwrap()` in
`amount_of_slots_unchecked`. -/
inductive RustPanic where
  | assertionFailed
  | tryFromUnwrap
deriving DecidableEq

/-- The crate's `Error` kinds used by this layer:
`Error::NotAnObject(RawObjectPointer)` and
`Error::ForwardedUnsupported(AnyObjectRef, ObjectHeader)` (payloads kept
as raw 64-bit patterns). -/
inductive VMError where
  | notAnObject (pointer : Nat)
  | forwardedUnsupported (selfRef : Nat) (otherHeader : Nat)
deriving DecidableEq

/-- Modelled from the spec: `ObjectHeader` is not under `src/`.  The header
is one bit-packed 64-bit machine word; `num_slots()` is its one-byte slot
count field (≤ 254 directly, 255 = out-of-band escape).  The spec does not
fix bit positions; following the Spur layout the byte is the top byte of
the word.  No claim depends on the position chosen. -/
def num_slots (h : Nat) : Nat := (h >>> 56) &&& 255

/-- Modelled from the spec: `ObjectHeader::class_index()` is a pure read of
a packed bit field identifying the class via an indirection table; values
`0..=8` denote forwarded/free states.  Following the Spur layout it is the
low 22 bits of the header word.  No claim depends on the position chosen. -/
def class_index (h : Nat) : Nat := h &&& 0x3FFFFF

/-- A heap object, identified by the byte address of its header
(`Object` is `repr(transparent)` over `ObjectHeader`, so `as_ptr` returns
the header address). -/
structure Object where
  addr : Nat
deriving DecidableEq

/-- `size_of::<ObjectHeader>()`: the header is one 64-bit machine word. -/
def headerSize : Nat := 8

/-- `Object::SHIFT_FOR_WORD = 3`. -/
def shiftForWord : Nat := 3

/-- The machine word size on the 64-bit target. -/
def wordSize : Nat := 8

/-- `Object::FORWARDED_OBJECT_CLASS_INDEX_PUN = 8`. -/
def forwardedObjectClassIndexPun : Nat := 8

/-- `Object::as_ptr`: the object's address (the header address). -/
def as_ptr (o : Object) : Nat := o.addr

/-- `Object::header`: the packed header word of `o` in memory `m`. -/
def header (m : Mem) (o : Object) : Nat := readWord m (as_ptr o)

/-- `Object::amount_of_slots_unchecked`: the inline `num_slots` field, or,
when that is 255, the 64-bit word immediately before the header put
through `u64::try_from(word << 8).unwrap() >> 8`.  The `i64` shift keeps
the low 56 bits shifted up by 8; `u64::try_from` fails (and the `unwrap`
panics) exactly when that shifted pattern has its sign bit set. -/
def amount_of_slots_unchecked (m : Mem) (o : Object) : Except RustPanic Nat :=
  if num_slots (header m o) = 255 then
    if ((readWord m (as_ptr o - headerSize)) <<< 8) % 2 ^ 64 < 2 ^ 63 then
      Except.ok ((((readWord m (as_ptr o - headerSize)) <<< 8) % 2 ^ 64) >>> 8)
    else
      Except.error RustPanic.tryFromUnwrap
  else
    Except.ok (num_slots (header m o))

/-- `Object::amount_of_slots`: asserts
`class_index > FORWARDED_OBJECT_CLASS_INDEX_PUN` and then defers to
`amount_of_slots_unchecked`. -/
def amount_of_slots (m : Mem) (o : Object) : Except RustPanic Nat :=
  if forwardedObjectClassIndexPun < class_index (header m o) then
    amount_of_slots_unchecked m o
  else
    Except.error RustPanic.assertionFailed

/-- `Object::is_forwarded`: `class_index <= 8`. -/
def is_forwarded (m : Mem) (o : Object) : Bool :=
  decide (class_index (header m o) ≤ forwardedObjectClassIndexPun)

/-- `Object::is_identical`: `None` when either side is forwarded, else
address equality of the two objects. -/
def is_identical (m : Mem) (o second : Object) : Option Bool :=
  if is_forwarded m o then none
  else if is_forwarded m second then none
  else some (decide (as_ptr o = as_ptr second))

/-- `Object::equals`: `Err(ForwardedUnsupported(self.into(), other.header()))`
when `other` is forwarded, else bitwise equality of the two packed
headers (`self.0 == other.0`, derived on the packed word). -/
def equals (m : Mem) (o other : Object) : Except VMError Bool :=
  if is_forwarded m other then
    Except.error (VMError.forwardedUnsupported (as_ptr o) (header m other))
  else
    Except.ok (decide (header m o = header m other))

/-- Modelled from the spec: `AnyObjectRef` is not under `src/`; it is a
tagged 64-bit machine word (either an immediate value or a heap
reference), with `as_i64` returning the raw pattern and
`AnyObjectRef::from(RawObjectPointer::from(i))` rebuilding it from the
pattern, so it is represented here by the pattern itself. -/
abbrev AnyObjectRef : Type := Nat

/-- The byte address the field accessors compute for `field_index`:
`as_ptr + size_of::<ObjectHeader>() + (field_index << SHIFT_FOR_WORD)`. -/
def instVarPtr (o : Object) (field_index : Nat) : Nat :=
  as_ptr o + headerSize + (field_index <<< shiftForWord)

/-- `Object::inst_var_at`: `None` when `field_index` is at or beyond the
slot count, else the 64-bit word stored at the field's address. -/
def inst_var_at (m : Mem) (o : Object) (field_index : Nat) :
    Except RustPanic (Option AnyObjectRef) :=
  match amount_of_slots_unchecked m o with
  | Except.error e => Except.error e
  | Except.ok n =>
    if n ≤ field_index then
      Except.ok none
    else
      Except.ok (some (readWord m (instVarPtr o field_index)))

/-- `Object::inst_var_at_put`: a silent no-op when `field_index` is at or
beyond the slot count, else stores the value's 64-bit pattern
(`object.into().as_i64()`) at the field's address. -/
def inst_var_at_put (m : Mem) (o : Object) (field_index : Nat)
    (object : AnyObjectRef) : Except RustPanic Mem :=
  match amount_of_slots_unchecked m o with
  | Except.error e => Except.error e
  | Except.ok n =>
    if n ≤ field_index then
      Except.ok m
    else
      Except.ok (writeWord m (instVarPtr o field_index) object)

/-- Modelled from the spec: `RawObjectPointer::is_immediate` is not under
`src/`.  Low-order tag bits discriminate immediates from heap references;
references carry tag 0.  With the three Spur tag bits: immediate iff the
low 3 bits are nonzero.  No claim depends on the tag width chosen. -/
def is_immediate (p : Nat) : Bool := decide (p % 8 ≠ 0)

/-- `ObjectRef`: a wrapper around a raw pointer proven not immediate. -/
structure ObjectRef where
  pointer : Nat
deriving DecidableEq

/-- `impl TryFrom<RawObjectPointer> for ObjectRef`: `Ok(Self(value))` when
the pointer is not immediate, else `Err(Error::NotAnObject(value))`. -/
def ObjectRef.try_from (value : Nat) : Except VMError ObjectRef :=
  if is_immediate value = false then
    Except.ok (ObjectRef.mk value)
  else
    Except.error (VMError.notAnObject value)

/-- The slot count the spec's words prescribe on the 255 escape path: the
out-of-band word with its LOW byte masked off.  (The code instead masks
off the HIGH byte.)  Kept separate from the source-derived definitions so
the two can be compared. -/
def maskLowByteSpec (w : Nat) : Nat := w - w % 256

/-- Whether an `Except RustPanic` result returned normally (no panic). -/
def noPanic (r : Except RustPanic Nat) : Bool :=
  match r with
  | Except.ok _ => true
  | Except.error _ => false

/-- Concrete memory for the C1 examples: an object at address 16 whose
header has `num_slots = 255` and whose out-of-band word (at address 8)
is 300. -/
def c1Mem : Mem :=
  fun a => if a = 16 then 255 * 2 ^ 56 else if a = 8 then 300 else 0

/-- The object at address 16 in `c1Mem`. -/
def c1Obj : Object := Object.mk 16

/-- Concrete memory for the C2 counterexample: an object at address 16
whose header has `num_slots = 255` and whose out-of-band word (at
address 8) is `2 ^ 55` (bit 55 set). -/
def c2Mem : Mem :=
  fun a => if a = 16 then 255 * 2 ^ 56 else if a = 8 then 2 ^ 55 else 0

/-- The object at address 16 in `c2Mem`. -/
def c2Obj : Object := Object.mk 16

/-- Concrete demonstration memory: live objects at 1000 and 2000 with
identical headers (`class_index = 20`, `num_slots = 3`), and a forwarded
object at 3000 (`class_index = 5`, `num_slots = 1`). -/
def demoMem : Mem :=
  fun a =>
    if a = 1000 then 3 * 2 ^ 56 + 20
    else if a = 2000 then 3 * 2 ^ 56 + 20
    else if a = 3000 then 2 ^ 56 + 5
    else 0

/-- The live object at address 1000 in `demoMem`. -/
def objA : Object := Object.mk 1000

/-- The live object at address 2000 in `demoMem`. -/
def objB : Object := Object.mk 2000

/-- The forwarded object at address 3000 in `demoMem`. -/
def objF : Object := Object.mk 3000

theorem readWord_lt (m : Mem) (a : Nat) : readWord m a < 2 ^ 64 :=
  Nat.mod_lt _ (by norm_num)

theorem readWord_writeWord_same (m : Mem) (a v : Nat) :
    readWord (writeWord m a v) a = v % 2 ^ 64 := by
  unfold readWord writeWord
  simp

theorem readWord_writeWord_ne (m : Mem) (a b v : Nat) (h : b ≠ a) :
    readWord (writeWord m a v) b = readWord m b := by
  unfold readWord writeWord
  rw [if_neg h]

theorem shifted_eq (w : Nat) : (w <<< 8) % 2 ^ 64 = (w % 2 ^ 56) * 256 := by
  rw [Nat.shiftLeft_eq, (by norm_num : (2 : Nat) ^ 64 = 2 ^ 56 * 2 ^ 8),
    Nat.mul_mod_mul_right]

theorem amount_small (m : Mem) (o : Object)
    (h : num_slots (header m o) ≠ 255) :
    amount_of_slots_unchecked m o = Except.ok (num_slots (header m o)) := by
  unfold amount_of_slots_unchecked
  rw [if_neg h]

theorem amount_escape (m : Mem) (o : Object)
    (h : num_slots (header m o) = 255) :
    amount_of_slots_unchecked m o =
      if readWord m (as_ptr o - headerSize) % 2 ^ 56 < 2 ^ 55 then
        Except.ok (readWord m (as_ptr o - headerSize) % 2 ^ 56)
      else
        Except.error RustPanic.tryFromUnwrap := by
  unfold amount_of_slots_unchecked
  rw [if_pos h, shifted_eq]
  have hlt : (readWord m (as_ptr o - headerSize) % 2 ^ 56) * 256 < 2 ^ 63 ↔
      readWord m (as_ptr o - headerSize) % 2 ^ 56 < 2 ^ 55 := by
    rw [(by norm_num : (2 : Nat) ^ 63 = 2 ^ 55 * 256)]
    exact Nat.mul_lt_mul_right (by norm_num)
  have hsh : ((readWord m (as_ptr o - headerSize) % 2 ^ 56) * 256) >>> 8 =
      readWord m (as_ptr o - headerSize) % 2 ^ 56 := by
    rw [Nat.shiftRight_eq_div_pow]
    norm_num
  rw [hsh]
  by_cases hc : readWord m (as_ptr o - headerSize) % 2 ^ 56 < 2 ^ 55
  · rw [if_pos (hlt.mpr hc), if_pos hc]
  · rw [if_neg (fun hx => hc (hlt.mp hx)), if_neg hc]

theorem inst_var_at_eq (m : Mem) (o : Object) (i n : Nat)
    (hn : amount_of_slots_unchecked m o = Except.ok n) :
    inst_var_at m o i =
      if n ≤ i then Except.ok none
      else Except.ok (some (readWord m (instVarPtr o i))) := by
  unfold inst_var_at
  rw [hn]

theorem inst_var_at_put_eq (m : Mem) (o : Object) (i n : Nat)
    (v : AnyObjectRef)
    (hn : amount_of_slots_unchecked m o = Except.ok n) :
    inst_var_at_put m o i v =
      if n ≤ i then Except.ok m
      else Except.ok (writeWord m (instVarPtr o i) v) := by
  unfold inst_var_at_put
  rw [hn]

theorem unchecked_no_assert (m : Mem) (o : Object) :
    amount_of_slots_unchecked m o ≠ Except.error RustPanic.assertionFailed := by
  unfold amount_of_slots_unchecked
  split
  · split
    · simp
    · simp
  · simp

/-- C1 (amended): for headers with inline `num_slots < 255`,
`amount_of_slots_unchecked` returns the inline `num_slots`; for headers
with `num_slots = 255` and out-of-band word `E` whose bit 55 is clear
(`E % 2 ^ 56 < 2 ^ 55`), it returns `E` with its HIGH byte masked off,
i.e. `E % 2 ^ 56` — not the low byte as the claim states. -/
theorem c1_slots_unchecked_amended (m : Mem) (o : Object) :
    (num_slots (header m o) < 255 →
      amount_of_slots_unchecked m o = Except.ok (num_slots (header m o))) ∧
    (num_slots (header m o) = 255 →
      readWord m (as_ptr o - headerSize) % 2 ^ 56 < 2 ^ 55 →
      amount_of_slots_unchecked m o =
        Except.ok (readWord m (as_ptr o - headerSize) % 2 ^ 56)) := by
  constructor
  · intro h
    exact amount_small m o (Nat.ne_of_lt h)
  · intro h255 hbit
    rw [amount_escape m o h255, if_pos hbit]

/-- C1 counterexample: for the object at address 16 with `num_slots = 255`
and out-of-band word 300, the code returns 300 (low byte intact), while
the claim's "E after masking the low byte" prescribes 256. -/
theorem c1_low_byte_mask_counterexample :
    amount_of_slots_unchecked c1Mem c1Obj = Except.ok 300 ∧
    maskLowByteSpec (readWord c1Mem (as_ptr c1Obj - headerSize)) = 256 ∧
    (300 : Nat) ≠ 256 :=
  ⟨rfl, rfl, by decide⟩

/-- C1 witness: the amended claim evaluated on a live 3-slot object and on
the 255-escape object with out-of-band word 300. -/
theorem c1_slots_unchecked_amended_witness :
    amount_of_slots_unchecked demoMem objA = Except.ok 3 ∧
    amount_of_slots_unchecked c1Mem c1Obj = Except.ok 300 :=
  ⟨(c1_slots_unchecked_amended demoMem objA).1 (by decide),
   (c1_slots_unchecked_amended c1Mem c1Obj).2 (by decide) (by decide)⟩

/-- C2 (amended): `amount_of_slots_unchecked` returns without panicking
whenever the inline `num_slots` is below 255, and on the 255 escape path
whenever bit 55 of the out-of-band word is clear; but when `num_slots`
is 255 and bit 55 of the word is set, the internal
`u64::try_from(..).unwrap()` panics. -/
theorem c2_no_panic_amended (m : Mem) (o : Object) :
    (num_slots (header m o) < 255 →
      noPanic (amount_of_slots_unchecked m o) = true) ∧
    (readWord m (as_ptr o - headerSize) % 2 ^ 56 < 2 ^ 55 →
      noPanic (amount_of_slots_unchecked m o) = true) ∧
    (num_slots (header m o) = 255 →
      2 ^ 55 ≤ readWord m (as_ptr o - headerSize) % 2 ^ 56 →
      amount_of_slots_unchecked m o =
        Except.error RustPanic.tryFromUnwrap) := by
  refine ⟨fun h => ?_, fun h => ?_, fun h255 hbit => ?_⟩
  · rw [amount_small m o (Nat.ne_of_lt h)]
    rfl
  · by_cases h255 : num_slots (header m o) = 255
    · rw [amount_escape m o h255, if_pos h]
      rfl
    · rw [amount_small m o h255]
      rfl
  · rw [amount_escape m o h255, if_neg (Nat.not_lt.mpr hbit)]

/-- C2 counterexample: the object at address 16 with `num_slots = 255` and
out-of-band word `2 ^ 55` makes `amount_of_slots_unchecked` panic in
`u64::try_from(word << 8).unwrap()`, so the call does not "never fail". -/
theorem c2_panic_counterexample :
    amount_of_slots_unchecked c2Mem c2Obj =
      Except.error RustPanic.tryFromUnwrap := rfl

/-- C2 witness: the amended claim evaluated on a live 3-slot object, on the
255-escape object with word 300, and on the panicking word `2 ^ 55`. -/
theorem c2_no_panic_amended_witness :
    noPanic (amount_of_slots_unchecked demoMem objA) = true ∧
    noPanic (amount_of_slots_unchecked c1Mem c1Obj) = true ∧
    amount_of_slots_unchecked c2Mem c2Obj =
      Except.error RustPanic.tryFromUnwrap :=
  ⟨(c2_no_panic_amended demoMem objA).1 (by decide),
   (c2_no_panic_amended c1Mem c1Obj).2.1 (by decide),
   (c2_no_panic_amended c2Mem c2Obj).2.2 (by decide) (by decide)⟩

/-- C3: for every object whose slot count evaluates to `n`, and every
index `i ≥ n`, `inst_var_at` returns "absent" and `inst_var_at_put`
returns with the memory (header and every slot) unchanged; neither
operation faults. -/
theorem c3_out_of_range_clamp (m : Mem) (o : Object) (i n : Nat)
    (v : AnyObjectRef)
    (hn : amount_of_slots_unchecked m o = Except.ok n) (hi : n ≤ i) :
    inst_var_at m o i = Except.ok none ∧
    inst_var_at_put m o i v = Except.ok m := by
  constructor
  · rw [inst_var_at_eq m o i n hn, if_pos hi]
  · rw [inst_var_at_put_eq m o i n v hn, if_pos hi]

/-- C3 witness: reading and writing index 3 of the 3-slot object leave it
untouched. -/
theorem c3_out_of_range_clamp_witness :
    inst_var_at demoMem objA 3 = Except.ok none ∧
    inst_var_at_put demoMem objA 3 7 = Except.ok demoMem :=
  c3_out_of_range_clamp demoMem objA 3 3 7 (by rfl) (by decide)

/-- C4: `equals a b` is `Err(ForwardedUnsupported)` when `b` is forwarded,
and otherwise `Ok true` iff the packed header bit patterns of `a` and `b`
are identical, `Ok false` otherwise. -/
theorem c4_equals_spec (m : Mem) (a b : Object) :
    (is_forwarded m b = true →
      equals m a b =
        Except.error (VMError.forwardedUnsupported (as_ptr a) (header m b))) ∧
    (is_forwarded m b = false →
      ((equals m a b = Except.ok true ↔ header m a = header m b) ∧
       (header m a ≠ header m b → equals m a b = Except.ok false))) := by
  constructor
  · intro hb
    simp [equals, hb]
  · intro hb
    constructor
    · simp [equals, hb]
    · intro hne
      simp [equals, hb, hne]

/-- C4 witness: comparing a live object against the forwarded object
errs; comparing the two live objects with identical headers answers
`Ok true`. -/
theorem c4_equals_spec_witness :
    equals demoMem objA objF =
      Except.error
        (VMError.forwardedUnsupported 1000 (header demoMem objF)) ∧
    equals demoMem objA objB = Except.ok true :=
  ⟨(c4_equals_spec demoMem objA objF).1 (by rfl),
   ((c4_equals_spec demoMem objA objB).2 (by rfl)).1.mpr (by rfl)⟩

/-- C5: `equals` inspects only its argument's forwarding state: when
`self` is forwarded and `other` is not, it returns `Ok` with the bitwise
header comparison rather than an error. -/
theorem c5_equals_ignores_self_forwarding (m : Mem) (a b : Object)
    (ha : is_forwarded m a = true) (hb : is_forwarded m b = false) :
    equals m a b = Except.ok (decide (header m a = header m b)) := by
  simp [equals, hb]

/-- C5 witness: the forwarded object compared against a live one still
answers `Ok false` instead of erring. -/
theorem c5_equals_ignores_self_forwarding_witness :
    equals demoMem objF objA = Except.ok false :=
  c5_equals_ignores_self_forwarding demoMem objF objA (by rfl) (by rfl)

/-- C6: for `class_index > 8`, `amount_of_slots` agrees with
`amount_of_slots_unchecked` and the assertion never fires (and the object
is not forwarded); for `class_index ≤ 8` — exactly the objects
`is_forwarded` reports — `amount_of_slots` fails fast via the assertion. -/
theorem c6_amount_of_slots_assertion (m : Mem) (o : Object) :
    (forwardedObjectClassIndexPun < class_index (header m o) →
      (amount_of_slots m o = amount_of_slots_unchecked m o ∧
       amount_of_slots m o ≠ Except.error RustPanic.assertionFailed ∧
       is_forwarded m o = false)) ∧
    (class_index (header m o) ≤ forwardedObjectClassIndexPun →
      (is_forwarded m o = true ∧
       amount_of_slots m o = Except.error RustPanic.assertionFailed)) := by
  constructor
  · intro h
    have h1 : amount_of_slots m o = amount_of_slots_unchecked m o := by
      unfold amount_of_slots
      rw [if_pos h]
    refine ⟨h1, ?_, ?_⟩
    · rw [h1]
      exact unchecked_no_assert m o
    · simp only [is_forwarded, decide_eq_false_iff_not]
      exact Nat.not_le.mpr h
  · intro h
    refine ⟨?_, ?_⟩
    · simp only [is_forwarded, decide_eq_true_eq]
      exact h
    · unfold amount_of_slots
      rw [if_neg (Nat.not_lt.mpr h)]

/-- C6 witness: the live object (`class_index = 20`) passes the assertion
and agrees with the unchecked count; the forwarded object
(`class_index = 5`) trips the assertion. -/
theorem c6_amount_of_slots_assertion_witness :
    amount_of_slots demoMem objA = amount_of_slots_unchecked demoMem objA ∧
    amount_of_slots demoMem objF = Except.error RustPanic.assertionFailed :=
  ⟨((c6_amount_of_slots_assertion demoMem objA).1 (by decide)).1,
   ((c6_amount_of_slots_assertion demoMem objF).2 (by decide)).2⟩

/-- C7: round-trip — for an in-range index `i` and a 64-bit value `v`,
`inst_var_at_put i v` stores `v` at the field's address, and reading the
field back from the updated memory yields `some v`. -/
theorem c7_inst_var_round_trip (m : Mem) (o : Object) (i n : Nat)
    (v : AnyObjectRef)
    (hn : amount_of_slots_unchecked m o = Except.ok n) (hi : i < n)
    (hv : v < 2 ^ 64) :
    inst_var_at_put m o i v = Except.ok (writeWord m (instVarPtr o i) v) ∧
    inst_var_at (writeWord m (instVarPtr o i) v) o i =
      Except.ok (some v) := by
  have hptr : instVarPtr o i = as_ptr o + 8 + i * 8 := by
    unfold instVarPtr headerSize shiftForWord
    rw [Nat.shiftLeft_eq]
  have hne1 : as_ptr o ≠ instVarPtr o i := by
    rw [hptr]
    omega
  have hne2 : as_ptr o - headerSize ≠ instVarPtr o i := by
    rw [hptr]
    unfold headerSize
    omega
  have hm2 : amount_of_slots_unchecked (writeWord m (instVarPtr o i) v) o =
      Except.ok n := by
    rw [← hn]
    unfold amount_of_slots_unchecked header
    rw [readWord_writeWord_ne _ _ _ _ hne1,
      readWord_writeWord_ne _ _ _ _ hne2]
  constructor
  · rw [inst_var_at_put_eq m o i n v hn, if_neg (Nat.not_le.mpr hi)]
  · rw [inst_var_at_eq _ o i n hm2, if_neg (Nat.not_le.mpr hi),
      readWord_writeWord_same, Nat.mod_eq_of_lt hv]

/-- C7 witness: storing 424242 in slot 1 of the 3-slot object and reading
slot 1 back returns 424242. -/
theorem c7_inst_var_round_trip_witness :
    inst_var_at_put demoMem objA 1 424242 =
      Except.ok (writeWord demoMem (instVarPtr objA 1) 424242) ∧
    inst_var_at (writeWord demoMem (instVarPtr objA 1) 424242) objA 1 =
      Except.ok (some 424242) :=
  c7_inst_var_round_trip demoMem objA 1 3 424242 (by rfl) (by decide)
    (by decide)

/-- C8: `is_identical` is `none` when either side is forwarded, and
otherwise `some` of the address equality: `some true` on an object and
itself, `some false` on two distinct objects even with equal contents. -/
theorem c8_is_identical_spec (m : Mem) (a b : Object) :
    ((is_forwarded m a = true ∨ is_forwarded m b = true) →
      is_identical m a b = none) ∧
    (is_forwarded m a = false → is_forwarded m b = false →
      is_identical m a b = some (decide (as_ptr a = as_ptr b))) ∧
    (is_forwarded m a = false → is_identical m a a = some true) ∧
    (is_forwarded m a = false → is_forwarded m b = false →
      as_ptr a ≠ as_ptr b → is_identical m a b = some false) := by
  refine ⟨fun h => ?_, fun ha hb => ?_, fun ha => ?_, fun ha hb hne => ?_⟩
  · rcases h with h | h
    · simp [is_identical, h]
    · by_cases ha : is_forwarded m a = true
      · simp [is_identical, ha]
      · simp [is_identical, ha, h]
  · simp [is_identical, ha, hb]
  · simp [is_identical, ha]
  · simp [is_identical, ha, hb, hne]

/-- C8 witness: `objA` is identical to itself, not identical to `objB`
(whose header bits are equal to `objA`'s), and identity through the
forwarded object is `none`. -/
theorem c8_is_identical_spec_witness :
    is_identical demoMem objA objA = some true ∧
    is_identical demoMem objA objB = some false ∧
    is_identical demoMem objF objA = none :=
  ⟨(c8_is_identical_spec demoMem objA objA).2.2.1 (by rfl),
   (c8_is_identical_spec demoMem objA objB).2.2.2 (by rfl) (by rfl)
     (by decide),
   (c8_is_identical_spec demoMem objF objA).1 (Or.inl (by rfl))⟩

/-- C9: field index-to-address mapping — with `header_size = 8` and
`word_size = 8`, an in-range index `i` makes `inst_var_at` read and
`inst_var_at_put` write the machine word at byte offset
`header_size + i * word_size` from the start of the header. -/
theorem c9_field_offset (m : Mem) (o : Object) (i n : Nat)
    (v : AnyObjectRef)
    (hn : amount_of_slots_unchecked m o = Except.ok n) (hi : i < n) :
    headerSize = 8 ∧ wordSize = 8 ∧
    instVarPtr o i = as_ptr o + headerSize + i * wordSize ∧
    inst_var_at m o i =
      Except.ok (some (readWord m (as_ptr o + headerSize + i * wordSize))) ∧
    inst_var_at_put m o i v =
      Except.ok (writeWord m (as_ptr o + headerSize + i * wordSize) v) := by
  have hptr : instVarPtr o i = as_ptr o + headerSize + i * wordSize := by
    unfold instVarPtr wordSize shiftForWord
    rw [Nat.shiftLeft_eq]
  refine ⟨rfl, rfl, hptr, ?_, ?_⟩
  · rw [← hptr, inst_var_at_eq m o i n hn, if_neg (Nat.not_le.mpr hi)]
  · rw [← hptr, inst_var_at_put_eq m o i n v hn,
      if_neg (Nat.not_le.mpr hi)]

/-- C9 witness: slot 1 of the object at address 1000 lives at byte
address `1000 + 8 + 1 * 8`, and the accessors use exactly it. -/
theorem c9_field_offset_witness :
    instVarPtr objA 1 = as_ptr objA + headerSize + 1 * wordSize ∧
    inst_var_at demoMem objA 1 =
      Except.ok
        (some (readWord demoMem (as_ptr objA + headerSize + 1 * wordSize))) :=
  ⟨(c9_field_offset demoMem objA 1 3 5 (by rfl) (by decide)).2.2.1,
   (c9_field_offset demoMem objA 1 3 5 (by rfl) (by decide)).2.2.2.1⟩

/-- C10: `ObjectRef::try_from` fails with `NotAnObject` exactly when the
raw pointer is immediate, and otherwise wraps exactly the given pointer. -/
theorem c10_try_from_spec (value : Nat) :
    (is_immediate value = true →
      ObjectRef.try_from value =
        Except.error (VMError.notAnObject value)) ∧
    (is_immediate value = false →
      ObjectRef.try_from value = Except.ok (ObjectRef.mk value)) := by
  constructor
  · intro h
    simp [ObjectRef.try_from, h]
  · intro h
    simp [ObjectRef.try_from, h]

/-- C10 witness: the immediate pattern 3 is rejected as `NotAnObject`;
the aligned pattern 8 is wrapped unchanged. -/
theorem c10_try_from_spec_witness :
    ObjectRef.try_from 3 = Except.error (VMError.notAnObject 3) ∧
    ObjectRef.try_from 8 = Except.ok (ObjectRef.mk 8) :=
  ⟨(c10_try_from_spec 3).1 (by decide), (c10_try_from_spec 8).2 (by decide)⟩

end GtoolkitVM
